import Mathlib

/-!
# Verification of the MoltBook plugin bridge (`src/moltbook-tools.ts`)

Shallow embedding of the request bridge and the four tool definitions of
`openclaw-moltbook-plugin`.  JavaScript strings are modelled by `String`,
JS string primitives (`trim`, `startsWith`, `toLowerCase`) are modelled
directly over the character list, JSON values by an inductive `Json`
(numbers restricted to integers, which covers every claim considered),
`undefined`/absent values by `Option`, and thrown `Error`s by
`Except MoltbookError`.  The `fetch` outcome is abstracted by a
`FetchOutcome` value (a response, or an abort from the cancellation
timer), since the network itself is outside the program.
-/

/-- JS `String.prototype.trim` (whitespace model: space, tab, CR, LF). -/
def jsTrim (s : String) : String :=
  String.mk (((s.data.dropWhile Char.isWhitespace).reverse.dropWhile Char.isWhitespace).reverse)

/-- JS `String.prototype.startsWith`. -/
def strStartsWith (s pre : String) : Bool :=
  List.isPrefixOf pre.data s.data

/-- JS `String.prototype.toLowerCase` (ASCII model). -/
def strToLower (s : String) : String :=
  String.mk (s.data.map Char.toLower)

/-- JS `a || b` on an optional string `a`: `b` when `a` is absent or empty. -/
def jsOr (a : Option String) (b : String) : String :=
  match a with
  | none => b
  | some s => if s = "" then b else s

/-- JSON values, with numbers modelled as integers. -/
inductive Json where
  | null : Json
  | bool : Bool → Json
  | num : Int → Json
  | str : String → Json
  | arr : List Json → Json
  | obj : List (String × Json) → Json

/-- Escape of a single character inside a JSON string literal
(`JSON.stringify` model). -/
def jsonEscChar (c : Char) : String :=
  if c = '"' then "\\\""
  else if c = '\\' then "\\\\"
  else if c = '\n' then "\\n"
  else if c = '\t' then "\\t"
  else if c = '\r' then "\\r"
  else String.singleton c

/-- Escape a whole string for a JSON string literal. -/
def jsonEscape (s : String) : String :=
  s.data.foldl (fun acc c => acc ++ jsonEscChar c) ""

mutual

/-- `JSON.stringify` model. -/
def jsonStringify : Json → String
  | Json.null => "null"
  | Json.bool true => "true"
  | Json.bool false => "false"
  | Json.num n => toString n
  | Json.str s => "\"" ++ jsonEscape s ++ "\""
  | Json.arr xs => "[" ++ jsonStringifyList xs ++ "]"
  | Json.obj fs => "\x7b" ++ jsonStringifyFields fs ++ "\x7d"

/-- Serialize array elements, comma-separated. -/
def jsonStringifyList : List Json → String
  | [] => ""
  | [x] => jsonStringify x
  | x :: xs => jsonStringify x ++ "," ++ jsonStringifyList xs

/-- Serialize object fields, comma-separated. -/
def jsonStringifyFields : List (String × Json) → String
  | [] => ""
  | [(k, v)] => "\"" ++ jsonEscape k ++ "\":" ++ jsonStringify v
  | (k, v) :: fs => "\"" ++ jsonEscape k ++ "\":" ++ jsonStringify v ++ "," ++ jsonStringifyFields fs

end

/-- Skip JSON whitespace. -/
def skipWs : List Char → List Char
  | [] => []
  | c :: cs => if c = ' ' ∨ c = '\t' ∨ c = '\n' ∨ c = '\r' then skipWs cs else c :: cs

/-- Unescape of a character after a backslash in a JSON string literal. -/
def jsonUnescChar (c : Char) : Char :=
  if c = 'n' then '\n'
  else if c = 't' then '\t'
  else if c = 'r' then '\r'
  else c

/-- Parse the remainder of a JSON string literal (after the opening quote). -/
def parseStringRest : List Char → Option (String × List Char)
  | [] => none
  | '"' :: rest => some ("", rest)
  | '\\' :: c :: rest =>
    match parseStringRest rest with
    | some (s, r) => some (String.singleton (jsonUnescChar c) ++ s, r)
    | none => none
  | c :: rest =>
    match parseStringRest rest with
    | some (s, r) => some (String.singleton c ++ s, r)
    | none => none

/-- Parse a run of decimal digits (accumulator style). -/
def parseDigits : List Char → Nat → Nat × List Char
  | [], acc => (acc, [])
  | c :: cs, acc =>
    if c.isDigit then parseDigits cs (acc * 10 + (c.toNat - 48)) else (acc, c :: cs)

/-- Parse a JSON integer (fractional syntax is not modelled). -/
def parseNum : List Char → Option (Json × List Char)
  | '-' :: c :: cs =>
    if c.isDigit then
      let p := parseDigits (c :: cs) 0
      some (Json.num (-(p.1 : Int)), p.2)
    else none
  | c :: cs =>
    if c.isDigit then
      let p := parseDigits (c :: cs) 0
      some (Json.num (p.1 : Int), p.2)
    else none
  | [] => none

mutual

/-- Fuel-indexed JSON value parser (`JSON.parse` model). -/
def parseJsonVal : Nat → List Char → Option (Json × List Char)
  | 0, _ => none
  | fuel + 1, cs =>
    match skipWs cs with
    | [] => none
    | 'n' :: 'u' :: 'l' :: 'l' :: rest => some (Json.null, rest)
    | 't' :: 'r' :: 'u' :: 'e' :: rest => some (Json.bool true, rest)
    | 'f' :: 'a' :: 'l' :: 's' :: 'e' :: rest => some (Json.bool false, rest)
    | '"' :: rest =>
      match parseStringRest rest with
      | some (s, r) => some (Json.str s, r)
      | none => none
    | '[' :: rest =>
      (match skipWs rest with
       | ']' :: r => some (Json.arr [], r)
       | other => parseArrItems fuel other)
    | '\x7b' :: rest =>
      (match skipWs rest with
       | '\x7d' :: r => some (Json.obj [], r)
       | other => parseObjItems fuel other)
    | other => parseNum other

/-- Parse one-or-more array items separated by commas. -/
def parseArrItems : Nat → List Char → Option (Json × List Char)
  | 0, _ => none
  | fuel + 1, cs =>
    match parseJsonVal fuel cs with
    | some (v, rest) =>
      (match skipWs rest with
       | ',' :: r =>
         (match parseArrItems fuel r with
          | some (Json.arr vs, r2) => some (Json.arr (v :: vs), r2)
          | _ => none)
       | ']' :: r => some (Json.arr [v], r)
       | _ => none)
    | none => none

/-- Parse one-or-more object fields separated by commas. -/
def parseObjItems : Nat → List Char → Option (Json × List Char)
  | 0, _ => none
  | fuel + 1, cs =>
    match skipWs cs with
    | '"' :: rest =>
      (match parseStringRest rest with
       | some (k, r1) =>
         (match skipWs r1 with
          | ':' :: r2 =>
            (match parseJsonVal fuel r2 with
             | some (v, r3) =>
               (match skipWs r3 with
                | ',' :: r4 =>
                  (match parseObjItems fuel r4 with
                   | some (Json.obj fs, r5) => some (Json.obj ((k, v) :: fs), r5)
                   | _ => none)
                | '\x7d' :: r4 => some (Json.obj [(k, v)], r4)
                | _ => none)
             | none => none)
          | _ => none)
       | none => none)
    | _ => none

end

/-- `JSON.parse` model: parse a complete JSON document. -/
def jsonParse (text : String) : Option Json :=
  match parseJsonVal (text.length + 1) text.data with
  | some (j, rest) => if skipWs rest = [] then some j else none
  | none => none

/-- Uppercase hex digit. -/
def hexDigit (n : Nat) : Char :=
  if n < 10 then Char.ofNat (48 + n) else Char.ofNat (55 + n)

/-- UTF-8 byte sequence of a character. -/
def utf8Bytes (c : Char) : List Nat :=
  let n := c.toNat
  if n < 128 then [n]
  else if n < 2048 then [192 + n / 64, 128 + n % 64]
  else if n < 65536 then [224 + n / 4096, 128 + (n / 64) % 64, 128 + n % 64]
  else [240 + n / 262144, 128 + (n / 4096) % 64, 128 + (n / 64) % 64, 128 + n % 64]

/-- Percent-encode all UTF-8 bytes of a character. -/
def percentEnc (c : Char) : String :=
  (utf8Bytes c).foldl
    (fun acc b => acc ++ "%" ++ String.singleton (hexDigit (b / 16)) ++ String.singleton (hexDigit (b % 16))) ""

/-- Characters left as-is by `URLSearchParams` serialization. -/
def formUnreserved (c : Char) : Bool :=
  c.isAlphanum || c = '*' || c = '-' || c = '.' || c = '_'

/-- `application/x-www-form-urlencoded` component encoding, as used by
JS `URLSearchParams.toString` (space becomes `+`). -/
def formEncode (s : String) : String :=
  s.data.foldl
    (fun acc c =>
      acc ++ (if c = ' ' then "+" else if formUnreserved c then String.singleton c else percentEnc c)) ""

/-- Characters left as-is by JS `encodeURIComponent`. -/
def uriUnreserved (c : Char) : Bool :=
  c.isAlphanum || c = '-' || c = '_' || c = '.' || c = '!' || c = '~' || c = '*' ||
    c = Char.ofNat 39 || c = '(' || c = ')'

/-- JS `encodeURIComponent`. -/
def encodeURIComponent (s : String) : String :=
  s.data.foldl
    (fun acc c => acc ++ (if uriUnreserved c then String.singleton c else percentEnc c)) ""

/-- Join strings with a separator. -/
def joinSep (sep : String) : List String → String
  | [] => ""
  | [x] => x
  | x :: xs => x ++ sep ++ joinSep sep xs

/-- `new URLSearchParams(pairs).toString()`. -/
def urlSearchParams (pairs : List (String × String)) : String :=
  joinSep "&" (pairs.map (fun p => formEncode p.1 ++ "=" ++ formEncode p.2))

/-! ## Config resolver (`getCfg`, `getApiKey`, lines 3-26 of the source) -/

/-- `const SAFE_BASE = "https://www.moltbook.com/api/v1"` (line 3). -/
def SAFE_BASE : String := "https://www.moltbook.com/api/v1"

/-- The `PluginCfg` type (lines 5-10): all fields optional. -/
structure PluginCfg where
  apiBase : Option String := none
  apiKey : Option String := none
  defaultSubmolt : Option String := none
  requestTimeoutMs : Option Int := none
deriving DecidableEq

/-- The resolved configuration returned by `getCfg` (the `...cfg` spread
with `apiBase` overridden by the checked string, line 18). -/
structure EffCfg where
  apiBase : String
  apiKey : Option String := none
  defaultSubmolt : Option String := none
  requestTimeoutMs : Option Int := none
deriving DecidableEq

/-- The distinct failure kinds thrown by the source (`new Error(msg)` at
each site), tagged by site; the carried string is the thrown message. -/
inductive MoltbookError where
  | unsafeEndpoint : String → MoltbookError
  | missingCredential : String → MoltbookError
  | invalidArgument : String → MoltbookError
  | timeout : MoltbookError
  | upstreamError : String → MoltbookError
deriving DecidableEq

/-- Message of the `Unsafe apiBase` error (line 16). -/
def unsafeBaseMsg : String := "Unsafe apiBase. Must use " ++ SAFE_BASE

/-- Message of the missing-credential error (line 24). -/
def missingKeyMsg : String := "Missing MoltBook API key (plugin config apiKey or MOLTBOOK_API_KEY)"

/-- `getCfg` (lines 12-19): `apiBase = (cfg.apiBase || SAFE_BASE).trim()`,
rejected unless it starts with `SAFE_BASE`; the rest of the config is
passed through. -/
def getCfg (cfg : PluginCfg) : Except MoltbookError EffCfg :=
  let apiBase := jsTrim (jsOr cfg.apiBase SAFE_BASE)
  if strStartsWith apiBase SAFE_BASE then
    Except.ok { apiBase := apiBase, apiKey := cfg.apiKey,
                defaultSubmolt := cfg.defaultSubmolt, requestTimeoutMs := cfg.requestTimeoutMs }
  else
    Except.error (MoltbookError.unsafeEndpoint unsafeBaseMsg)

/-- `getApiKey` (lines 21-26): resolves config first (so an unsafe base
throws here too), then `(cfg.apiKey || env.MOLTBOOK_API_KEY || "").trim()`,
failing when the result is empty.  `env` is the value of the
`MOLTBOOK_API_KEY` environment variable. -/
def getApiKey (cfg : PluginCfg) (env : Option String) : Except MoltbookError String := do
  let c ← getCfg cfg
  let key := jsTrim (jsOr c.apiKey (jsOr env ""))
  if key = "" then Except.error (MoltbookError.missingCredential missingKeyMsg)
  else Except.ok key

/-! ## HTTP bridge (`callMoltbook`, lines 28-64 of the source) -/

/-- A fetch response: HTTP status, response headers, body text
(`await res.text()`). -/
structure FetchResponse where
  status : Nat
  headers : List (String × String) := []
  bodyText : String := ""
deriving DecidableEq

/-- Outcome of the `fetch` call: a response, or an abort (the cancellation
timer fired, or the network failed). -/
inductive FetchOutcome where
  | response : FetchResponse → FetchOutcome
  | aborted : FetchOutcome
deriving DecidableEq

/-- `res.ok`: status in the success range [200, 300). -/
def resOk (status : Nat) : Bool :=
  200 ≤ status && status < 300

/-- `res.headers.get(name)`: case-insensitive header lookup. -/
def headerGet (headers : List (String × String)) (name : String) : Option String :=
  (headers.find? (fun p => strToLower p.1 == strToLower name)).map (fun p => p.2)

/-- Lines 46-52: body decoding.  `data = text ? JSON.parse(text) : null`,
with a parse failure caught and replaced by `{raw: text}`. -/
def parseBody (text : String) : Json :=
  if text = "" then Json.null
  else
    match jsonParse text with
    | some j => j
    | none => Json.obj [("raw", Json.str text)]

/-- `data?.error` when it is a string: lookup of a string-valued `error`
field on an object. -/
def jsGetStrField (data : Json) (name : String) : Option String :=
  match data with
  | Json.obj fs =>
    match fs.find? (fun p => p.1 == name) with
    | some (_, Json.str s) => some s
    | _ => none
  | _ => none

/-- Line 56: `typeof data?.error === "string" ? data.error : JSON.stringify(data)`. -/
def upstreamDetail (data : Json) : String :=
  match jsGetStrField data "error" with
  | some s => s
  | none => jsonStringify data

/-- Line 57: the `UpstreamError` message
`MoltBook API ${status}: ${detail}${retryAfter ? ` (retry-after=${retryAfter}s)` : ""}`. -/
def upstreamMessage (status : Nat) (detail : String) (retryAfter : Option String) : String :=
  "MoltBook API " ++ toString status ++ ": " ++ detail ++
    (match retryAfter with
     | some ra => if ra = "" then "" else " (retry-after=" ++ ra ++ "s)"
     | none => "")

/-- The body of the `try` block (lines 36-60) given the fetch outcome:
an abort surfaces as `Timeout`; otherwise the body is decoded, a
non-success status raises `UpstreamError`, and a success returns the
decoded value. -/
def bridgeResult (outcome : FetchOutcome) : Except MoltbookError Json :=
  match outcome with
  | FetchOutcome.aborted => Except.error MoltbookError.timeout
  | FetchOutcome.response res =>
    let data := parseBody res.bodyText
    if resOk res.status then Except.ok data
    else
      let retryAfter := headerGet res.headers "retry-after"
      let detail := upstreamDetail data
      Except.error (MoltbookError.upstreamError (upstreamMessage res.status detail retryAfter))

/-- Line 31: `cfg.requestTimeoutMs && cfg.requestTimeoutMs > 0 ? cfg.requestTimeoutMs : 15000`. -/
def resolveTimeoutMs (c : EffCfg) : Int :=
  match c.requestTimeoutMs with
  | some t => if t > 0 then t else 15000
  | none => 15000

/-- `callMoltbook` (lines 28-64): resolve the config (line 29), resolve
the key (line 30), then run the guarded fetch.  The fetch outcome is an
input, abstracting the network. -/
def callMoltbook (cfg : PluginCfg) (env : Option String) (outcome : FetchOutcome) :
    Except MoltbookError Json := do
  let _c ← getCfg cfg
  let _apiKey ← getApiKey cfg env
  bridgeResult outcome

/-- Timer events: `setTimeout` (line 34) and `clearTimeout` (line 62). -/
inductive TimerEvent where
  | set : TimerEvent
  | cleared : TimerEvent
deriving DecidableEq

/-- `try { body } finally { fin }`: the finally events run after the body,
whether the body returned or threw. -/
def tryFinallyEv (body : Except MoltbookError Json × List TimerEvent) (fin : List TimerEvent) :
    Except MoltbookError Json × List TimerEvent :=
  (body.1, body.2 ++ fin)

/-- `callMoltbook` with the timer events traced: failures of `getCfg` /
`getApiKey` happen before `setTimeout` (lines 29-31), then the timer is
armed and the `try`/`finally` of lines 35-63 runs. -/
def callMoltbookTraced (cfg : PluginCfg) (env : Option String) (outcome : FetchOutcome) :
    Except MoltbookError Json × List TimerEvent :=
  match getCfg cfg with
  | Except.error e => (Except.error e, [])
  | Except.ok _ =>
    match getApiKey cfg env with
    | Except.error e => (Except.error e, [])
    | Except.ok _ =>
      let x := tryFinallyEv (bridgeResult outcome, []) [TimerEvent.cleared]
      (x.1, TimerEvent.set :: x.2)

/-! ## Tool definitions (lines 82-168 of the source)

Each tool's `execute` first validates/normalizes its parameters and
builds the argument of `callMoltbook`; that phase is modelled as a
function to `Except MoltbookError BridgeRequest`.  An `Except.ok`
result is exactly the bridged network request the tool then performs;
an `Except.error` means `execute` threw before any network call. -/

/-- The path/method/body triple handed to `callMoltbook`. -/
structure BridgeRequest where
  path : String
  method : String
  body : Option String := none
deriving DecidableEq

/-- JS `a || b` on strings: `b` when `a` is empty. -/
def jsOrStr (a b : String) : String :=
  if a = "" then b else a

/-- JS falsiness of an optional string: absent or empty. -/
def optFalsy (o : Option String) : Bool :=
  match o with
  | none => true
  | some s => s == ""

/-- Parameters of `moltbook_post`; `none` models an absent field or a
non-string value (the source guards every access with `typeof`). -/
structure PostParams where
  submolt : Option String := none
  title : Option String := none
  content : Option String := none
  url : Option String := none
deriving DecidableEq

/-- `moltbook_post`'s execute (lines 92-106) up to the `callMoltbook`
call: resolves config (line 93) and the channel, trims the fields,
validates `title` and `content`/`url`, and builds the POST request. -/
def postRequest (cfg : PluginCfg) (params : PostParams) : Except MoltbookError BridgeRequest := do
  let c ← getCfg cfg
  let submolt := jsOrStr (match params.submolt with | some s => jsTrim s | none => "")
    (jsOr c.defaultSubmolt "general")
  let title := match params.title with | some s => jsTrim s | none => ""
  let content := params.content.map jsTrim
  let url := params.url.map jsTrim
  if title = "" then Except.error (MoltbookError.invalidArgument "title is required")
  else if optFalsy content && optFalsy url then
    Except.error (MoltbookError.invalidArgument "Either content or url is required")
  else
    let fields := [("submolt", Json.str submolt), ("title", Json.str title)] ++
      (match content with | some s => if s = "" then [] else [("content", Json.str s)] | none => []) ++
      (match url with | some s => if s = "" then [] else [("url", Json.str s)] | none => [])
    Except.ok { path := "/posts", method := "POST", body := some (jsonStringify (Json.obj fields)) }

/-- Parameters of `moltbook_feed`. -/
structure FeedParams where
  personalized : Option Bool := none
  sort : Option String := none
  limit : Option Int := none
  submolt : Option String := none
deriving DecidableEq

/-- Line 128: `typeof params.limit === "number" ? Math.max(1, Math.min(50, params.limit)) : 10`. -/
def feedLimit (limit : Option Int) : Int :=
  match limit with
  | some n => max 1 (min 50 n)
  | none => 10

/-- `moltbook_feed`'s execute (lines 125-137) up to the `callMoltbook`
call.  `personalized = params.personalized !== false`; the query string
is `URLSearchParams({sort, limit})`, and the non-personalized route
appends `&submolt=<encodeURIComponent(submolt)>` when the trimmed
`submolt` is non-empty. -/
def feedRequest (params : FeedParams) : BridgeRequest :=
  let personalized := match params.personalized with | some false => false | _ => true
  let sort := match params.sort with | some s => s | none => "new"
  let limit := feedLimit params.limit
  let submolt := match params.submolt with | some s => jsTrim s | none => ""
  let qs := urlSearchParams [("sort", sort), ("limit", toString limit)]
  let path :=
    if personalized then "/feed?" ++ qs
    else if submolt ≠ "" then "/posts?" ++ qs ++ "&submolt=" ++ encodeURIComponent submolt
    else "/posts?" ++ qs
  { path := path, method := "GET", body := none }

/-- Parameters of `moltbook_search`. -/
structure SearchParams where
  query : Option String := none
  type : Option String := none
  limit : Option Int := none
deriving DecidableEq

/-- Line 158 of the source: the search limit default is 20. -/
def searchLimit (limit : Option Int) : Int :=
  match limit with
  | some n => max 1 (min 50 n)
  | none => 20

/-- `moltbook_search`'s execute (lines 155-161) up to the `callMoltbook`
call: trims the query, defaults `type`/`limit`, throws when the trimmed
query is empty, and builds the GET request. -/
def searchRequest (params : SearchParams) : Except MoltbookError BridgeRequest :=
  let query := match params.query with | some s => jsTrim s | none => ""
  let ty := match params.type with | some s => s | none => "all"
  let limit := searchLimit params.limit
  if query = "" then Except.error (MoltbookError.invalidArgument "query is required")
  else
    Except.ok { path := "/search?" ++ urlSearchParams [("q", query), ("type", ty), ("limit", toString limit)],
                method := "GET", body := none }

/-- The spec's phrase for C2, stated from the spec's words: the resolved
base is "exactly the trusted prefix or a sub-path extension of it" (the
trusted base itself, or the trusted base followed by a `/`-separated
suffix). -/
def specSubPathExtension (s : String) : Bool :=
  s == SAFE_BASE || strStartsWith s (SAFE_BASE ++ "/")

/-- Substring containment: `t` occurs inside `s`. -/
def strContains (s t : String) : Prop :=
  ∃ a b : String, s = a ++ t ++ b

/-! ## General lemmas -/

theorem strEq_of_data {a b : String} (h : a.data = b.data) : a = b :=
  congrArg String.mk h

theorem strData_append (a b : String) : (a ++ b).data = a.data ++ b.data := by
  cases a; cases b; rfl

theorem strAppend_assoc (a b c : String) : a ++ b ++ c = a ++ (b ++ c) := by
  apply strEq_of_data; simp [strData_append]

theorem formEncode_feedLimit (l : Option Int) :
    formEncode (toString (feedLimit l)) = toString (feedLimit l) := by
  rcases l with _ | n
  · decide
  · have h1 : 1 ≤ feedLimit (some n) := by simp [feedLimit]
    have h2 : feedLimit (some n) ≤ 50 := by simp [feedLimit]
    set m := feedLimit (some n) with hm
    clear_value m
    interval_cases m <;> decide

theorem urlSearchParams_two (k1 v1 k2 v2 : String) :
    urlSearchParams [(k1, v1), (k2, v2)] =
      formEncode k1 ++ "=" ++ formEncode v1 ++ "&" ++ formEncode k2 ++ "=" ++ formEncode v2 := by
  simp [urlSearchParams, joinSep, strAppend_assoc]

/-! ## Claims -/

/-- C2 counterexample: the configured base `SAFE_BASE ++ "x"` is accepted
by `getCfg`, but it is not the trusted prefix and not a sub-path
extension of it, refuting "every accepted string is a sub-path extension
of the prefix". -/
theorem getCfg_not_subpath_counterexample :
    getCfg { apiBase := some (SAFE_BASE ++ "x") } = Except.ok { apiBase := SAFE_BASE ++ "x" } ∧
    specSubPathExtension (SAFE_BASE ++ "x") = false :=
  ⟨rfl, by decide⟩

/-- C2 (amended): config resolution fails with `UnsafeEndpoint` whenever
the resolved (trimmed) base does not start with the trusted prefix, and
every accepted base starts with the trusted prefix — i.e. is an arbitrary
string extension of it, not necessarily a sub-path extension. -/
theorem getCfg_allowlist (cfg : PluginCfg) :
    (strStartsWith (jsTrim (jsOr cfg.apiBase SAFE_BASE)) SAFE_BASE = false →
      getCfg cfg = Except.error (MoltbookError.unsafeEndpoint unsafeBaseMsg)) ∧
    (∀ c, getCfg cfg = Except.ok c → strStartsWith c.apiBase SAFE_BASE = true) := by
  constructor
  · intro h
    simp [getCfg, h]
  · intro c hc
    by_cases h : strStartsWith (jsTrim (jsOr cfg.apiBase SAFE_BASE)) SAFE_BASE
    · simp [getCfg, h] at hc
      rw [← hc]
      exact h
    · simp [getCfg, h] at hc

/-- C2 witness: a non-prefixed base is rejected; the default base is
accepted and starts with the trusted prefix. -/
theorem getCfg_allowlist_witness :
    getCfg { apiBase := some "https://evil.example" } =
      Except.error (MoltbookError.unsafeEndpoint unsafeBaseMsg) ∧
    strStartsWith SAFE_BASE SAFE_BASE = true :=
  ⟨(getCfg_allowlist { apiBase := some "https://evil.example" }).1 (by decide),
   (getCfg_allowlist {}).2 { apiBase := SAFE_BASE } rfl⟩

/-- C3 counterexample: with a whitespace-only configured `apiBase`
(blank after trimming), the claim says the hard-coded default is used
and resolution succeeds; the code takes the configured value (it is
truthy before trimming), trims it to the empty string, and rejects it
with `UnsafeEndpoint`. -/
theorem getCfg_blank_base_counterexample :
    getCfg { apiBase := some " " } = Except.error (MoltbookError.unsafeEndpoint unsafeBaseMsg) ∧
    jsTrim " " = "" :=
  ⟨rfl, rfl⟩

/-- C3 (amended): the hard-coded default base is used exactly when the
configured `apiBase` is absent or the empty string (the `||` falsiness
test runs before trimming); a non-empty configured value is selected and
trimmed, so a whitespace-only value trims to empty, fails the allow-list
check, and resolution fails with `UnsafeEndpoint` instead of falling
back to the default. -/
theorem getCfg_default_selection (cfg : PluginCfg) :
    (cfg.apiBase = none ∨ cfg.apiBase = some "" →
      getCfg cfg = Except.ok { apiBase := SAFE_BASE, apiKey := cfg.apiKey,
                               defaultSubmolt := cfg.defaultSubmolt,
                               requestTimeoutMs := cfg.requestTimeoutMs }) ∧
    (∀ s, cfg.apiBase = some s → s ≠ "" → jsTrim s = "" →
      getCfg cfg = Except.error (MoltbookError.unsafeEndpoint unsafeBaseMsg)) ∧
    (∀ s, cfg.apiBase = some s → s ≠ "" → strStartsWith (jsTrim s) SAFE_BASE = true →
      getCfg cfg = Except.ok { apiBase := jsTrim s, apiKey := cfg.apiKey,
                               defaultSubmolt := cfg.defaultSubmolt,
                               requestTimeoutMs := cfg.requestTimeoutMs }) ∧
    (∀ s, cfg.apiBase = some s → s ≠ "" → strStartsWith (jsTrim s) SAFE_BASE = false →
      getCfg cfg = Except.error (MoltbookError.unsafeEndpoint unsafeBaseMsg)) := by
  have ht : jsTrim SAFE_BASE = SAFE_BASE := by decide
  have hsb : strStartsWith SAFE_BASE SAFE_BASE = true := by decide
  have hes : strStartsWith "" SAFE_BASE = false := by decide
  refine ⟨?_, ?_, ?_, ?_⟩
  · intro h
    rcases h with h | h <;> simp [getCfg, jsOr, h, ht, hsb]
  · intro s h hne htr
    simp [getCfg, jsOr, h, hne, htr, hes]
  · intro s h hne hs
    simp [getCfg, jsOr, h, hne, hs]
  · intro s h hne hs
    simp [getCfg, jsOr, h, hne, hs]

/-- C3 witness: an absent base resolves to the default; the non-empty
base `"x"` is selected and rejected. -/
theorem getCfg_default_selection_witness :
    getCfg {} = Except.ok { apiBase := SAFE_BASE } ∧
    getCfg { apiBase := some "x" } = Except.error (MoltbookError.unsafeEndpoint unsafeBaseMsg) :=
  ⟨(getCfg_default_selection {}).1 (Or.inl rfl),
   (getCfg_default_selection { apiBase := some "x" }).2.2.2 "x" rfl (by decide) (by decide)⟩

/-- C1 counterexample: calling the search execute body with
`query = "a"` (trimmed length 1) does not fail; it proceeds to the
bridged network request `/search?q=a&type=all&limit=20`, refuting
"execution only proceeds when the trimmed query has length at least 2". -/
theorem searchRequest_len1_counterexample :
    searchRequest { query := some "a" } =
      Except.ok { path := "/search?q=a&type=all&limit=20", method := "GET", body := none } ∧
    (jsTrim "a").length = 1 :=
  ⟨rfl, rfl⟩

/-- C1 (amended): the search execute function fails with
`InvalidArgument` ("query is required") exactly when the query is absent
or trims to the empty string, and otherwise proceeds to the network
request; the minimum-length-2 constraint exists only in the declared
parameter schema (`minLength: 2`, checked by the host on the untrimmed
string), not in the execute function itself. -/
theorem searchRequest_validation (params : SearchParams) :
    ((match params.query with | some s => jsTrim s | none => "") = "" →
      searchRequest params = Except.error (MoltbookError.invalidArgument "query is required")) ∧
    (∀ s, params.query = some s → jsTrim s ≠ "" →
      searchRequest params = Except.ok
        { path := "/search?" ++ urlSearchParams [("q", jsTrim s),
            ("type", match params.type with | some t => t | none => "all"),
            ("limit", toString (searchLimit params.limit))],
          method := "GET", body := none }) := by
  constructor
  · intro h
    simp [searchRequest, h]
  · intro s hq hne
    simp [searchRequest, hq, hne]

/-- C1 witness: an absent query fails; `" a "` (trimmed length 1) passes
validation and yields the search request. -/
theorem searchRequest_validation_witness :
    searchRequest { query := none } =
      Except.error (MoltbookError.invalidArgument "query is required") ∧
    searchRequest { query := some " a " } = Except.ok
      { path := "/search?" ++ urlSearchParams [("q", jsTrim " a "), ("type", "all"),
          ("limit", toString (searchLimit none))],
        method := "GET", body := none } :=
  ⟨(searchRequest_validation { query := none }).1 rfl,
   (searchRequest_validation { query := some " a " }).2 " a " rfl (by decide)⟩

/-- C6: for the post execute body (once config resolution succeeds —
the source resolves config on its first line), a title that is absent or
blank after trimming fails with `InvalidArgument` ("title is required")
regardless of the other fields, and a non-blank title with both
`content` and `url` absent or blank after trimming fails with
`InvalidArgument` ("Either content or url is required"); both failures
return before any bridged request is constructed. -/
theorem post_validation (cfg : PluginCfg) (params : PostParams) (c : EffCfg)
    (hc : getCfg cfg = Except.ok c) :
    ((match params.title with | some s => jsTrim s | none => "") = "" →
      postRequest cfg params = Except.error (MoltbookError.invalidArgument "title is required")) ∧
    (∀ s, params.title = some s → jsTrim s ≠ "" →
      optFalsy (params.content.map jsTrim) = true → optFalsy (params.url.map jsTrim) = true →
      postRequest cfg params =
        Except.error (MoltbookError.invalidArgument "Either content or url is required")) := by
  constructor
  · intro ht
    simp [postRequest, hc, Bind.bind, Except.bind, ht]
  · intro s hs ht hco hu
    simp [postRequest, hc, Bind.bind, Except.bind, hs, ht, hco, hu]

/-- C6 witness: a whitespace-only title fails even with content present;
a real title with neither content nor url fails. -/
theorem post_validation_witness :
    postRequest {} { title := some " ", content := some "World" } =
      Except.error (MoltbookError.invalidArgument "title is required") ∧
    postRequest {} { title := some "T" } =
      Except.error (MoltbookError.invalidArgument "Either content or url is required") :=
  ⟨(post_validation {} { title := some " ", content := some "World" }
      { apiBase := SAFE_BASE } rfl).1 rfl,
   (post_validation {} { title := some "T" } { apiBase := SAFE_BASE } rfl).2
      "T" rfl (by decide) rfl rfl⟩

/-- C7: the outgoing feed limit is the input clamped to [1, 50]
(500 becomes 50, 0 becomes 1), an absent limit becomes 10, the clamped
value is what appears in the outgoing query string, and out-of-range
values are never rejected — the feed request is always constructed, as a
GET. -/
theorem feed_limit_clamped (n : Int) (params : FeedParams) :
    (1 ≤ feedLimit (some n) ∧ feedLimit (some n) ≤ 50) ∧
    (1 ≤ n → n ≤ 50 → feedLimit (some n) = n) ∧
    (50 < n → feedLimit (some n) = 50) ∧
    (n < 1 → feedLimit (some n) = 1) ∧
    feedLimit none = 10 ∧
    strContains (feedRequest params).path ("limit=" ++ toString (feedLimit params.limit)) ∧
    (feedRequest params).method = "GET" := by
  refine ⟨⟨by simp [feedLimit], ?_⟩, ?_, ?_, ?_, rfl, ?_, rfl⟩
  · simp only [feedLimit]
    exact max_le (by norm_num) (min_le_left _ _)
  · intro h1 h2
    simp only [feedLimit]
    rw [min_eq_right h2, max_eq_right h1]
  · intro h
    simp only [feedLimit]
    rw [min_eq_left (le_of_lt h)]
    norm_num
  · intro h
    simp only [feedLimit]
    rw [min_eq_right (by omega : n ≤ (50 : Int)), max_eq_left (by omega : n ≤ (1 : Int))]
  · have hlim : formEncode "limit" = "limit" := by decide
    have hfe := formEncode_feedLimit params.limit
    have hq : urlSearchParams [("sort", match params.sort with | some s => s | none => "new"),
        ("limit", toString (feedLimit params.limit))] =
        formEncode "sort" ++ "=" ++
          formEncode (match params.sort with | some s => s | none => "new") ++ "&" ++
          "limit" ++ "=" ++ toString (feedLimit params.limit) := by
      rw [urlSearchParams_two, hlim, hfe]
    rcases hp : params.personalized with _ | b
    · refine ⟨"/feed?" ++ formEncode "sort" ++ "=" ++
        formEncode (match params.sort with | some s => s | none => "new") ++ "&", "", ?_⟩
      apply strEq_of_data
      simp [feedRequest, hp, hq, strData_append]
    · cases b
      · by_cases hs : (match params.submolt with | some s => jsTrim s | none => "") = ""
        · refine ⟨"/posts?" ++ formEncode "sort" ++ "=" ++
            formEncode (match params.sort with | some s => s | none => "new") ++ "&", "", ?_⟩
          apply strEq_of_data
          simp [feedRequest, hp, hs, hq, strData_append]
        · refine ⟨"/posts?" ++ formEncode "sort" ++ "=" ++
            formEncode (match params.sort with | some s => s | none => "new") ++ "&",
            "&submolt=" ++ encodeURIComponent
              (match params.submolt with | some s => jsTrim s | none => ""), ?_⟩
          apply strEq_of_data
          simp [feedRequest, hp, hs, hq, strData_append]
      · refine ⟨"/feed?" ++ formEncode "sort" ++ "=" ++
          formEncode (match params.sort with | some s => s | none => "new") ++ "&", "", ?_⟩
        apply strEq_of_data
        simp [feedRequest, hp, hq, strData_append]

/-- C7 witness: 500 clamps to 50, 0 clamps to 1, absent defaults to 10,
and the clamped value is in the outgoing path. -/
theorem feed_limit_clamped_witness :
    feedLimit (some 500) = 50 ∧ feedLimit (some 0) = 1 ∧ feedLimit none = 10 ∧
    strContains (feedRequest { limit := some 500 }).path
      ("limit=" ++ toString (feedLimit (some 500))) :=
  ⟨(feed_limit_clamped 500 {}).2.2.1 (by norm_num),
   (feed_limit_clamped 0 {}).2.2.2.1 (by norm_num),
   (feed_limit_clamped 0 {}).2.2.2.2.1,
   (feed_limit_clamped 500 { limit := some 500 }).2.2.2.2.2.1⟩

/-- C8: when `personalized` is `true` or omitted the feed request goes to
the personalized `/feed` path carrying the sort and limit query
parameters, and the `submolt` parameter has no effect on the request;
when `personalized` is `false` the request goes to the general `/posts`
path, with a `submolt` query parameter appended exactly when the trimmed
`submolt` is non-blank. -/
theorem feed_routing (params : FeedParams) :
    (params.personalized ≠ some false →
      (feedRequest params).path = "/feed?" ++ urlSearchParams
        [("sort", match params.sort with | some s => s | none => "new"),
         ("limit", toString (feedLimit params.limit))] ∧
      (∀ sub, feedRequest { params with submolt := sub } = feedRequest params)) ∧
    (params.personalized = some false →
      (feedRequest params).path =
        (if (match params.submolt with | some s => jsTrim s | none => "") ≠ "" then
          "/posts?" ++ urlSearchParams
            [("sort", match params.sort with | some s => s | none => "new"),
             ("limit", toString (feedLimit params.limit))] ++ "&submolt=" ++
            encodeURIComponent (match params.submolt with | some s => jsTrim s | none => "")
        else
          "/posts?" ++ urlSearchParams
            [("sort", match params.sort with | some s => s | none => "new"),
             ("limit", toString (feedLimit params.limit))])) := by
  constructor
  · intro h
    constructor
    · rcases hp : params.personalized with _ | b
      · simp [feedRequest, hp]
      · cases b
        · exact absurd hp h
        · simp [feedRequest, hp]
    · intro sub
      rcases hp : params.personalized with _ | b
      · simp [feedRequest, hp]
      · cases b
        · exact absurd hp h
        · simp [feedRequest, hp]
  · intro h
    simp [feedRequest, h]

/-- C8 witness: `personalized=false, submolt="cats"` routes to the
general-posts path with `submolt=cats`; with `personalized=true`,
adding `submolt="cats"` leaves the request unchanged. -/
theorem feed_routing_witness :
    (feedRequest { personalized := some false, submolt := some "cats" }).path =
      "/posts?sort=new&limit=10&submolt=cats" ∧
    feedRequest { personalized := some true, submolt := some "cats" } =
      feedRequest { personalized := some true } := by
  constructor
  · have h := (feed_routing { personalized := some false, submolt := some "cats" }).2 rfl
    rw [h]
    decide
  · exact ((feed_routing { personalized := some true }).1 (by decide)).2 (some "cats")

/-- C4 counterexample: a success response with the empty body — which is
not valid JSON — yields `null` (the `text ? JSON.parse(text) : null`
conditional short-circuits on the empty string), not `{raw: ""}`,
refuting the claim for the empty body text. -/
theorem emptyBody_not_raw_counterexample :
    callMoltbook {} (some "k") (FetchOutcome.response { status := 200, bodyText := "" }) =
      Except.ok Json.null ∧
    jsonParse "" = none ∧
    (Except.ok Json.null : Except MoltbookError Json) ≠
      Except.ok (Json.obj [("raw", Json.str "")]) :=
  ⟨rfl, rfl, by intro h; injection h with h2; exact Json.noConfusion h2⟩

/-- C4 (amended): for every upstream response with a success status whose
body text is non-empty and not valid JSON, the bridge succeeds and
returns `{raw: <the original body text>}`; an empty body, though also
not valid JSON, yields `null` instead. -/
theorem nonjson_body_wrapped (cfg : PluginCfg) (env : Option String) (res : FetchResponse)
    (c : EffCfg) (k : String)
    (hc : getCfg cfg = Except.ok c) (hk : getApiKey cfg env = Except.ok k)
    (hok : resOk res.status = true) :
    (res.bodyText ≠ "" → jsonParse res.bodyText = none →
      callMoltbook cfg env (FetchOutcome.response res) =
        Except.ok (Json.obj [("raw", Json.str res.bodyText)])) ∧
    (res.bodyText = "" →
      callMoltbook cfg env (FetchOutcome.response res) = Except.ok Json.null) := by
  constructor
  · intro hne hbad
    simp [callMoltbook, hc, hk, Bind.bind, Except.bind, bridgeResult, parseBody, hne, hbad, hok]
  · intro he
    simp [callMoltbook, hc, hk, Bind.bind, Except.bind, bridgeResult, parseBody, he, hok]

/-- C4 witness: the non-JSON body `"not json"` with status 200 is wrapped
as `{raw: "not json"}`. -/
theorem nonjson_body_wrapped_witness :
    callMoltbook {} (some "k")
        (FetchOutcome.response { status := 200, bodyText := "not json" }) =
      Except.ok (Json.obj [("raw", Json.str "not json")]) :=
  (nonjson_body_wrapped {} (some "k") { status := 200, bodyText := "not json" }
    { apiBase := SAFE_BASE } "k" rfl rfl rfl).1 (by decide) rfl

/-- C5: every upstream response with a non-success status makes the
bridge raise `UpstreamError`, and its message contains the status code,
the detail (the body's string `error` field if present, else the
serialized parsed body), and — when a non-empty `retry-after` header is
present — the text `retry-after=<value>s`. -/
theorem upstream_error_surfaced (cfg : PluginCfg) (env : Option String) (res : FetchResponse)
    (c : EffCfg) (k : String)
    (hc : getCfg cfg = Except.ok c) (hk : getApiKey cfg env = Except.ok k)
    (hstatus : resOk res.status = false) :
    callMoltbook cfg env (FetchOutcome.response res) =
      Except.error (MoltbookError.upstreamError
        (upstreamMessage res.status (upstreamDetail (parseBody res.bodyText))
          (headerGet res.headers "retry-after"))) ∧
    strContains
      (upstreamMessage res.status (upstreamDetail (parseBody res.bodyText))
        (headerGet res.headers "retry-after"))
      (toString res.status) ∧
    strContains
      (upstreamMessage res.status (upstreamDetail (parseBody res.bodyText))
        (headerGet res.headers "retry-after"))
      (upstreamDetail (parseBody res.bodyText)) ∧
    (∀ ra, headerGet res.headers "retry-after" = some ra → ra ≠ "" →
      strContains
        (upstreamMessage res.status (upstreamDetail (parseBody res.bodyText))
          (headerGet res.headers "retry-after"))
        ("retry-after=" ++ ra ++ "s")) := by
  refine ⟨?_, ?_, ?_, ?_⟩
  · simp [callMoltbook, hc, hk, Bind.bind, Except.bind, bridgeResult, hstatus]
  · refine ⟨"MoltBook API ", ": " ++ upstreamDetail (parseBody res.bodyText) ++
      (match headerGet res.headers "retry-after" with
       | some r => if r = "" then "" else " (retry-after=" ++ r ++ "s)"
       | none => ""), ?_⟩
    simp [upstreamMessage, strAppend_assoc]
  · refine ⟨"MoltBook API " ++ toString res.status ++ ": ",
      (match headerGet res.headers "retry-after" with
       | some r => if r = "" then "" else " (retry-after=" ++ r ++ "s)"
       | none => ""), ?_⟩
    simp [upstreamMessage, strAppend_assoc]
  · intro ra hra hne
    refine ⟨"MoltBook API " ++ toString res.status ++ ": " ++
      upstreamDetail (parseBody res.bodyText) ++ " (", ")", ?_⟩
    apply strEq_of_data
    simp [upstreamMessage, hra, hne, strData_append]

/-- C5 witness: status 429 with header `retry-after: 30` and body
`{"error":"rate limited"}` raises an `UpstreamError` whose message
contains `429` and `retry-after=30s`. -/
theorem upstream_error_surfaced_witness :
    callMoltbook {} (some "k")
        (FetchOutcome.response
          { status := 429, headers := [("retry-after", "30")],
            bodyText := "\x7b\"error\":\"rate limited\"\x7d" }) =
      Except.error (MoltbookError.upstreamError
        (upstreamMessage 429
          (upstreamDetail (parseBody "\x7b\"error\":\"rate limited\"\x7d"))
          (headerGet [("retry-after", "30")] "retry-after"))) ∧
    strContains
      (upstreamMessage 429
        (upstreamDetail (parseBody "\x7b\"error\":\"rate limited\"\x7d"))
        (headerGet [("retry-after", "30")] "retry-after"))
      (toString 429) ∧
    strContains
      (upstreamMessage 429
        (upstreamDetail (parseBody "\x7b\"error\":\"rate limited\"\x7d"))
        (headerGet [("retry-after", "30")] "retry-after"))
      ("retry-after=" ++ "30" ++ "s") := by
  have h := upstream_error_surfaced {} (some "k")
    { status := 429, headers := [("retry-after", "30")],
      bodyText := "\x7b\"error\":\"rate limited\"\x7d" }
    { apiBase := SAFE_BASE } "k" rfl rfl (by decide)
  exact ⟨h.1, h.2.1, h.2.2.2 "30" rfl (by decide)⟩

/-- C9: on every execution path of the bridge — success, upstream error,
and timeout — the number of timers armed equals the number of timers
cleared (the `finally` block clears the timer on every exit of the
`try`), and the traced execution computes the same result as the
bridge. -/
theorem timer_cleared_on_every_path (cfg : PluginCfg) (env : Option String)
    (outcome : FetchOutcome) :
    ((callMoltbookTraced cfg env outcome).2.count TimerEvent.set =
      (callMoltbookTraced cfg env outcome).2.count TimerEvent.cleared) ∧
    (callMoltbookTraced cfg env outcome).1 = callMoltbook cfg env outcome := by
  rcases h1 : getCfg cfg with e | c
  · simp [callMoltbookTraced, callMoltbook, h1, Bind.bind, Except.bind]
  · rcases h2 : getApiKey cfg env with e | k
    · simp [callMoltbookTraced, callMoltbook, h1, h2, Bind.bind, Except.bind]
    · simp [callMoltbookTraced, callMoltbook, h1, h2, Bind.bind, Except.bind, tryFinallyEv]

/-- C10: when the configured base fails the allow-list check, the bridge
fails with the `UnsafeEndpoint` error for every credential state —
including a missing API key — and never with `MissingCredential`:
`getCfg` runs before any credential resolution. -/
theorem allowlist_checked_before_credential (cfg : PluginCfg) (env : Option String)
    (outcome : FetchOutcome)
    (h : strStartsWith (jsTrim (jsOr cfg.apiBase SAFE_BASE)) SAFE_BASE = false) :
    callMoltbook cfg env outcome = Except.error (MoltbookError.unsafeEndpoint unsafeBaseMsg) ∧
    (∀ m, callMoltbook cfg env outcome ≠ Except.error (MoltbookError.missingCredential m)) := by
  have hc : getCfg cfg = Except.error (MoltbookError.unsafeEndpoint unsafeBaseMsg) := by
    simp [getCfg, h]
  have heq : callMoltbook cfg env outcome =
      Except.error (MoltbookError.unsafeEndpoint unsafeBaseMsg) := by
    simp [callMoltbook, hc, Bind.bind, Except.bind]
  refine ⟨heq, ?_⟩
  intro m hcontra
  rw [heq] at hcontra
  injection hcontra with h2
  exact MoltbookError.noConfusion h2

/-- C10 witness: an unsafe base with no key configured and no environment
key fails with `UnsafeEndpoint`, not `MissingCredential`. -/
theorem allowlist_checked_before_credential_witness :
    callMoltbook { apiBase := some "https://evil.example" } none FetchOutcome.aborted =
      Except.error (MoltbookError.unsafeEndpoint unsafeBaseMsg) ∧
    (∀ m, callMoltbook { apiBase := some "https://evil.example" } none FetchOutcome.aborted ≠
      Except.error (MoltbookError.missingCredential m)) :=
  allowlist_checked_before_credential { apiBase := some "https://evil.example" } none
    FetchOutcome.aborted (by decide)
